import Mathlib

/-!
# Verification of the channel detection and signal synthesis engine

Shallow embedding of the core trading logic:
* `trading/channel_detector.py` — trendlines, channel validation, position
  classification (`validate_channel`, the tail of `detect_channel`);
* `trading/strategy_engine.py` — `generate_signal`;
* `trading/options_flow_analyzer.py` — `analyze_flow_sentiment`.

Python floats are modelled as rationals (`ℚ`); the dictionaries passed
between the components are modelled as structures whose fields carry the
dictionary entries, and string-valued fields stay strings, as in the code.
-/

namespace UWIBKR

/-- `Trendline` dataclass from `channel_detector.py`: slope and intercept. -/
structure Trendline where
  slope : ℚ
  intercept : ℚ
deriving DecidableEq, Repr

/-- `Trendline.value_at`: `slope * x + intercept`. -/
def Trendline.value_at (t : Trendline) (x : ℚ) : ℚ :=
  t.slope * x + t.intercept

/-- The slope-difference ratio computed on the first line of
`validate_channel`:
`abs((upper.slope - lower.slope) / (lower.slope if lower.slope else 1))`.
Python's conditional treats `0.0` as falsy, so the denominator is the lower
slope when it is nonzero and `1` when it is zero. -/
def slopeDiff (upper lower : Trendline) : ℚ :=
  |(upper.slope - lower.slope) / (if lower.slope = 0 then 1 else lower.slope)|

/-- Number of samples whose close lies inside the band, inclusive on both
sides: `np.logical_and(data <= upper_vals, data >= lower_vals)` where the
lines are evaluated at `x = np.arange(len(data))`. -/
def containedCount (upper lower : Trendline) (data : List ℚ) : ℕ :=
  (data.enum.filter (fun p =>
    decide (lower.value_at (p.1 : ℚ) ≤ p.2) &&
    decide (p.2 ≤ upper.value_at (p.1 : ℚ)))).length

/-- `np.mean(within)`: the contained fraction of the series. -/
def containmentFraction (upper lower : Trendline) (data : List ℚ) : ℚ :=
  (containedCount upper lower data : ℚ) / (data.length : ℚ)

/-- `validate_channel` from `channel_detector.py`: the channel is valid when
the slope-difference ratio does not exceed `0.1` and the contained fraction
exceeds `0.9`. -/
def validate_channel (upper lower : Trendline) (data : List ℚ) : Bool :=
  if slopeDiff upper lower > 1/10 then false
  else decide (containmentFraction upper lower data > 9/10)

/-- The position classification at the end of `detect_channel`
(lines 64–72): compare the last close's distance to the support and
resistance values at the final index `x = len(close) - 1`. -/
def currentPosition (close : List ℚ) (upper lower : Trendline) : String :=
  let current_price := close.getLastD 0
  let x : ℚ := (close.length : ℚ) - 1
  let support := lower.value_at x
  let resistance := upper.value_at x
  if |current_price - support| < |current_price - resistance| then "Near Support"
  else if |current_price - resistance| < |current_price - support| then "Near Resistance"
  else "Middle"

/-- The channel dictionary built by `detect_channel`. `ticker` is absent
from the dictionary that `detect_channel` returns (the orchestrator adds
it), hence an `Option`. -/
structure ChannelData where
  status : String
  type : String
  support_params : ℚ × ℚ
  resistance_params : ℚ × ℚ
  quality_score : ℚ
  current_position : String
  ticker : Option String
deriving DecidableEq, Repr

/-- The tail of `detect_channel` (lines 61–81), taking the two fitted
trendlines as inputs: validity verdict, type classification, parameter
tuples, quality score, and position. The RANSAC fitting that produces the
two lines is upstream of this function. -/
def detect_channel_from (upper lower : Trendline) (close : List ℚ) : ChannelData :=
  let valid := validate_channel upper lower close
  { status := if valid then "Valid" else "Invalid"
    type := if upper.slope > 0 then "Ascending"
            else if upper.slope < 0 then "Descending" else "Horizontal"
    support_params := (lower.slope, lower.intercept)
    resistance_params := (upper.slope, upper.intercept)
    quality_score := if valid then 1 else 0
    current_position := currentPosition close upper lower
    ticker := none }

/-- One record of the `unusual_trades` list consumed by `generate_signal`.
The code reads only `t.get('type')`, which is `None` when the key is
missing, hence an `Option`. -/
structure Trade where
  type : Option String
deriving DecidableEq, Repr

/-- The gamma-exposure dictionary: `generate_signal` reads
`gex_profile.get('gex', 0)`; `get_gex_profile` also carries `flip_point`. -/
structure GexProfile where
  gex : ℚ
  flip_point : ℚ
deriving DecidableEq, Repr

/-- The signal dictionary returned by `generate_signal` on success; the
empty dictionary is modelled as `none` at the call site. -/
structure Signal where
  ticker : Option String
  direction : String
  confidence_score : ℚ
  entry_price_zone : ℚ
  stop_loss : Option ℚ
  target_price_1 : Option ℚ
  target_price_2 : Option ℚ
deriving DecidableEq, Repr

/-- `long_cond` from `strategy_engine.py`. -/
def long_cond (channel_data : ChannelData) (flow_sentiment : ℚ)
    (gex_profile : GexProfile) (unusual_trades : List Trade) : Bool :=
  (channel_data.type == "Ascending" || channel_data.type == "Horizontal") &&
  channel_data.current_position == "Near Support" &&
  decide (flow_sentiment > 1/2) &&
  unusual_trades.any (fun t => t.type == some "call") &&
  decide (gex_profile.gex > 0)

/-- `short_cond` from `strategy_engine.py`. -/
def short_cond (channel_data : ChannelData) (flow_sentiment : ℚ)
    (gex_profile : GexProfile) (unusual_trades : List Trade) : Bool :=
  (channel_data.type == "Descending" || channel_data.type == "Horizontal") &&
  channel_data.current_position == "Near Resistance" &&
  decide (flow_sentiment < -(1/2)) &&
  unusual_trades.any (fun t => t.type == some "put") &&
  decide (gex_profile.gex > 0)

/-- `generate_signal` from `strategy_engine.py`: short-circuit on a
non-`Valid` status, evaluate the long and short conditions, and build the
signal dictionary, `entry_price` being the second component (the intercept)
of the chosen parameter tuple. -/
def generate_signal (channel_data : ChannelData) (flow_sentiment : ℚ)
    (gex_profile : GexProfile) (unusual_trades : List Trade) : Option Signal :=
  if channel_data.status ≠ "Valid" then none
  else if !(long_cond channel_data flow_sentiment gex_profile unusual_trades ||
            short_cond channel_data flow_sentiment gex_profile unusual_trades) then none
  else
    let direction :=
      if long_cond channel_data flow_sentiment gex_profile unusual_trades
      then "LONG" else "SHORT"
    let entry_price :=
      if direction == "LONG" then channel_data.support_params.2
      else channel_data.resistance_params.2
    some { ticker := channel_data.ticker
           direction := direction
           confidence_score := channel_data.quality_score
           entry_price_zone := entry_price
           stop_loss := none
           target_price_1 := none
           target_price_2 := none }

/-- One record of the trade list consumed by `analyze_flow_sentiment`; the
code reads `t.get("call_premium", 0)` and `t.get("put_premium", 0)`, so the
fields carry those values with missing keys already defaulted to `0`. -/
structure FlowTrade where
  call_premium : ℚ
  put_premium : ℚ
deriving DecidableEq, Repr

/-- The pure computation of `analyze_flow_sentiment` from
`options_flow_analyzer.py`, over the fetched trade list: `0.0` for an
empty list or a zero total premium, otherwise the premium imbalance. -/
def analyze_flow_sentiment (trades : List FlowTrade) : ℚ :=
  if trades = [] then 0
  else
    let call_premium := (trades.map (fun t => t.call_premium)).sum
    let put_premium := (trades.map (fun t => t.put_premium)).sum
    let total := call_premium + put_premium
    if total = 0 then 0
    else (call_premium - put_premium) / total

/-- Follows the spec's words, for comparison with `slopeDiff` (the
formula the code actually computes): relative slope difference
`|slope_upper − slope_lower| / max(|slope_lower|, ε)` with an epsilon
guard in the denominator. -/
def specSlopeRatio (eps : ℚ) (upper lower : Trendline) : ℚ :=
  |upper.slope - lower.slope| / max |lower.slope| eps

/-- The Python exception class name that `_fit_line` lets escape on a
degenerate pivot set. `RANSACRegressor.fit` validates its input before any
sampling: with zero points the array check fails, and with one point the
`min_samples` check fails (`min_samples = X.shape[1] + 1 = 2` for the
one-feature regression used here); both raise `ValueError`. The repository
defines no error class of its own — in particular no `DegenerateFitError`
exists anywhere in the code — so the library's `ValueError` is what the
caller sees. Returns `none` when the input is not degenerate and the fit
proceeds. -/
def fitLineDegenerateException (x : List ℚ) : Option String :=
  if x.length < 2 then some "ValueError" else none

/-- Sample channel dictionary used to witness the signal theorems. -/
def sampleChannel : ChannelData :=
  { status := "Valid", type := "Ascending", support_params := (1, 100),
    resistance_params := (1, 110), quality_score := 1,
    current_position := "Near Support", ticker := none }

/-- Sample gamma-exposure profile with positive gex. -/
def sampleGex : GexProfile := ⟨120, 0⟩

/-- Sample unusual-trade record of call type. -/
def callTrade : Trade := ⟨some "call"⟩

/-- Sample close series for the end-to-end witnesses: four mid-band prices
and a final price near the support line. -/
def sampleClose : List ℚ := [5, 5, 5, 5, 41/10]

/-! ## Theorems -/

/-- C1: for every channel whose status is not `Valid`, `generate_signal`
returns the empty signal, for all values of the sentiment score, gex
profile, and unusual-trades list. -/
theorem invalid_status_no_signal (cd : ChannelData) (s : ℚ) (g : GexProfile)
    (ut : List Trade) (h : cd.status ≠ "Valid") :
    generate_signal cd s g ut = none := by
  simp [generate_signal, h]

/-- Witness for C1 at a concrete invalid channel. -/
theorem invalid_status_no_signal_witness :
    (ChannelData.mk "Invalid" "Ascending" (0, 0) (0, 0) 0 "Middle" none).status ≠ "Valid" ∧
    generate_signal ⟨"Invalid", "Ascending", (0, 0), (0, 0), 0, "Middle", none⟩ 1 ⟨1, 0⟩ [] = none :=
  ⟨by decide, invalid_status_no_signal _ _ _ _ (by decide)⟩

/-- C4 counterexample: the claim computes the parallelism ratio with
denominator `max(|slope_lower|, ε)` for a small ε and demands `Invalid`
whenever it exceeds `0.10`; at `ε = 1/100`, upper slope `1/50` and lower
slope `0`, that ratio is `2 > 1/10`, yet `validate_channel` accepts the
channel, because the code divides by `1` (not by a small ε) when the lower
slope is zero. -/
theorem spec_epsilon_ratio_counterexample :
    0 < (1/100 : ℚ) ∧ (1/100 : ℚ) < 1/10 ∧
    specSlopeRatio (1/100) ⟨1/50, 10⟩ ⟨0, 0⟩ > 1/10 ∧
    validate_channel ⟨1/50, 10⟩ ⟨0, 0⟩ [5, 5] = true := by
  refine ⟨by norm_num, by norm_num, ?_, ?_⟩
  · norm_num [specSlopeRatio, abs_eq_max_neg]
  · norm_num [validate_channel, slopeDiff, containmentFraction, containedCount,
      Trendline.value_at, List.enum, List.enumFrom, List.filter, abs_eq_max_neg]

/-- C4 (amended): with the denominator the code actually uses — the lower
slope when it is nonzero and `1` when it is zero — a slope-difference
ratio exceeding `0.10` makes `validate_channel` return `Invalid`
regardless of how many samples the band contains. -/
theorem slope_ratio_invalidates (u l : Trendline) (d : List ℚ)
    (h : slopeDiff u l > 1/10) : validate_channel u l d = false := by
  unfold validate_channel
  rw [if_pos h]

/-- Witness for the amended C4: slopes `1` and `0` give ratio `1`. -/
theorem slope_ratio_invalidates_witness :
    slopeDiff ⟨1, 0⟩ ⟨0, 0⟩ > 1/10 ∧ validate_channel ⟨1, 0⟩ ⟨0, 0⟩ [] = false :=
  ⟨by norm_num [slopeDiff, abs_eq_max_neg],
   slope_ratio_invalidates _ _ _ (by norm_num [slopeDiff, abs_eq_max_neg])⟩

/-- C8 counterexample: on a degenerate pivot set the error that escapes
`_fit_line` is the library's `ValueError`, not a `DegenerateFitError` — no
such error type exists in the code. -/
theorem degenerate_error_type_counterexample :
    fitLineDegenerateException [] = some "ValueError" ∧
    fitLineDegenerateException [0] = some "ValueError" ∧
    (some "ValueError" : Option String) ≠ some "DegenerateFitError" :=
  ⟨rfl, rfl, by decide⟩

/-- C8 (amended): for every pivot set with fewer than 2 pivots of a kind,
the trendline fitting step fails — with the library's `ValueError`, the
repository defining no `DegenerateFitError` — surfaced to the caller
rather than producing a `Trendline`. -/
theorem degenerate_fit_raises (x : List ℚ) (h : x.length < 2) :
    fitLineDegenerateException x = some "ValueError" := by
  simp [fitLineDegenerateException, h]

/-- Witness for the amended C8 at a one-pivot input. -/
theorem degenerate_fit_raises_witness :
    [(0 : ℚ)].length < 2 ∧ fitLineDegenerateException [0] = some "ValueError" :=
  ⟨by decide, degenerate_fit_raises [0] (by decide)⟩

/-- C10: when the lower trendline's slope is exactly zero the parallelism
denominator is `1` (not a small epsilon), the ratio then equals the upper
slope's absolute value, so a zero-slope support line passes the
parallelism check if and only if `|slope_upper| ≤ 0.1`; and the
denominator is nonzero for every input, so the division is always
well-defined. -/
theorem zero_slope_parallelism (u l : Trendline) :
    (if l.slope = 0 then (1 : ℚ) else l.slope) ≠ 0 ∧
    (l.slope = 0 →
      (if l.slope = 0 then (1 : ℚ) else l.slope) = 1 ∧
      slopeDiff u l = |u.slope| ∧
      (¬(slopeDiff u l > 1/10) ↔ |u.slope| ≤ 1/10)) := by
  constructor
  · by_cases h : l.slope = 0 <;> simp [h]
  · intro h
    have hd : slopeDiff u l = |u.slope| := by simp [slopeDiff, h]
    exact ⟨by simp [h], hd, by rw [hd]; exact not_lt⟩

/-- C3: `validate_channel` is valid exactly when the slope ratio is within
tolerance and the fraction of samples whose close lies within
`[lower_value, upper_value]` inclusive at the sample's index strictly
exceeds `0.90`; a series with exactly 90% of its points inside the band is
`Invalid`. -/
theorem containment_strict_threshold (u l : Trendline) (d : List ℚ) :
    (validate_channel u l d = true ↔
      (slopeDiff u l ≤ 1/10 ∧ containmentFraction u l d > 9/10)) ∧
    (containmentFraction u l d = 9/10 → validate_channel u l d = false) := by
  have main : validate_channel u l d = true ↔
      (slopeDiff u l ≤ 1/10 ∧ containmentFraction u l d > 9/10) := by
    unfold validate_channel
    by_cases hs : slopeDiff u l > 1/10
    · rw [if_pos hs]
      simp only [Bool.false_eq_true, false_iff, not_and]
      intro hle
      exact absurd hs (not_lt.mpr hle)
    · rw [if_neg hs]
      have hle : slopeDiff u l ≤ 1/10 := not_lt.mp hs
      constructor
      · intro hd
        exact ⟨hle, of_decide_eq_true hd⟩
      · intro hc
        exact decide_eq_true hc.2
  refine ⟨main, fun h90 => ?_⟩
  cases hval : validate_channel u l d
  · rfl
  · have hgt := (main.mp hval).2
    rw [h90] at hgt
    exact absurd hgt (lt_irrefl _)

/-- Witness for C3: a ten-sample series with exactly nine closes inside
the band has containment fraction exactly `9/10` and is rejected. -/
theorem containment_strict_threshold_witness :
    containmentFraction ⟨0, 10⟩ ⟨0, 0⟩ [5, 5, 5, 5, 5, 5, 5, 5, 5, 100] = 9/10 ∧
    validate_channel ⟨0, 10⟩ ⟨0, 0⟩ [5, 5, 5, 5, 5, 5, 5, 5, 5, 100] = false :=
  ⟨by norm_num [containmentFraction, containedCount, Trendline.value_at,
      List.enum, List.enumFrom, List.filter],
   (containment_strict_threshold ⟨0, 10⟩ ⟨0, 0⟩ _).2
     (by norm_num [containmentFraction, containedCount, Trendline.value_at,
       List.enum, List.enumFrom, List.filter])⟩

/-- C5: the position classification at the final index is `Near Support`
exactly when the last close is strictly closer to the support value than
to the resistance value, `Near Resistance` exactly when strictly closer to
the resistance value, and a tie between the two distances yields
`Middle`. -/
theorem position_tie_is_middle (close : List ℚ) (u l : Trendline)
    (_h : close ≠ []) :
    (currentPosition close u l = "Near Support" ↔
      |close.getLastD 0 - l.value_at ((close.length : ℚ) - 1)| <
      |close.getLastD 0 - u.value_at ((close.length : ℚ) - 1)|) ∧
    (currentPosition close u l = "Near Resistance" ↔
      |close.getLastD 0 - u.value_at ((close.length : ℚ) - 1)| <
      |close.getLastD 0 - l.value_at ((close.length : ℚ) - 1)|) ∧
    (|close.getLastD 0 - l.value_at ((close.length : ℚ) - 1)| =
      |close.getLastD 0 - u.value_at ((close.length : ℚ) - 1)| →
      currentPosition close u l = "Middle") := by
  unfold currentPosition
  dsimp only
  split_ifs with h1 h2
  · exact ⟨iff_of_true rfl h1, iff_of_false (by decide) (asymm h1),
      fun heq => by rw [heq] at h1; exact absurd h1 (lt_irrefl _)⟩
  · exact ⟨iff_of_false (by decide) h1, iff_of_true rfl h2,
      fun heq => by rw [heq] at h2; exact absurd h2 (lt_irrefl _)⟩
  · exact ⟨iff_of_false (by decide) h1, iff_of_false (by decide) h2,
      fun heq => rfl⟩

/-- Witness for C5: last close `5` is equidistant from support value `4`
and resistance value `6`, and the position is `Middle`. -/
theorem position_tie_is_middle_witness :
    ([1, 2, (5 : ℚ)] ≠ []) ∧ currentPosition [1, 2, 5] ⟨0, 6⟩ ⟨0, 4⟩ = "Middle" :=
  ⟨by decide,
   (position_tie_is_middle [1, 2, 5] ⟨0, 6⟩ ⟨0, 4⟩ (by decide)).2.2
     (by norm_num [Trendline.value_at, List.getLastD])⟩

/-- C2: for every `Valid` channel, `generate_signal` emits a signal if and
only if the long condition or the short condition holds, the two
conditions are mutually exclusive (the position cannot be both
`Near Support` and `Near Resistance`), and the emitted direction is `LONG`
exactly when the long condition holds and `SHORT` otherwise. -/
theorem valid_signal_iff_conditions (cd : ChannelData) (s : ℚ)
    (g : GexProfile) (ut : List Trade) (h : cd.status = "Valid") :
    ((generate_signal cd s g ut).isSome ↔
      (long_cond cd s g ut = true ∨ short_cond cd s g ut = true)) ∧
    ¬(long_cond cd s g ut = true ∧ short_cond cd s g ut = true) ∧
    (∀ sig, generate_signal cd s g ut = some sig →
      sig.direction = if long_cond cd s g ut then "LONG" else "SHORT") := by
  have hex : ¬(long_cond cd s g ut = true ∧ short_cond cd s g ut = true) := by
    rintro ⟨hl, hsct⟩
    simp only [long_cond, Bool.and_eq_true, Bool.or_eq_true, beq_iff_eq,
      decide_eq_true_eq] at hl
    simp only [short_cond, Bool.and_eq_true, Bool.or_eq_true, beq_iff_eq,
      decide_eq_true_eq] at hsct
    have h1 := hl.1.1.1.2
    have h2 := hsct.1.1.1.2
    rw [h1] at h2
    exact absurd h2 (by decide)
  have hstat : ¬(cd.status ≠ "Valid") := by simp [h]
  refine ⟨?_, hex, ?_⟩
  · unfold generate_signal
    rw [if_neg hstat]
    cases hlc : long_cond cd s g ut <;> cases hsc : short_cond cd s g ut <;> simp
  · intro sig hsig
    unfold generate_signal at hsig
    rw [if_neg hstat] at hsig
    revert hsig
    cases hlc : long_cond cd s g ut <;> cases hsc : short_cond cd s g ut <;>
      intro hsig <;> simp_all <;> rw [← hsig]

/-- Witness for C2 at a concrete valid ascending channel near support with
favorable sentiment, a call trade, and positive gex. -/
theorem valid_signal_iff_conditions_witness :
    sampleChannel.status = "Valid" ∧
    (((generate_signal sampleChannel (8/10) sampleGex [callTrade]).isSome ↔
        (long_cond sampleChannel (8/10) sampleGex [callTrade] = true ∨
         short_cond sampleChannel (8/10) sampleGex [callTrade] = true)) ∧
      ¬(long_cond sampleChannel (8/10) sampleGex [callTrade] = true ∧
        short_cond sampleChannel (8/10) sampleGex [callTrade] = true) ∧
      (∀ sig, generate_signal sampleChannel (8/10) sampleGex [callTrade] = some sig →
        sig.direction =
          if long_cond sampleChannel (8/10) sampleGex [callTrade] then "LONG" else "SHORT")) :=
  ⟨rfl, valid_signal_iff_conditions sampleChannel (8/10) sampleGex [callTrade] rfl⟩

/-- C6: for every emitted signal, `entry_price_zone` equals the support
trendline's intercept when the direction is `LONG` and the resistance
trendline's intercept when the direction is `SHORT` — the intercept term
itself, not the line's value at the current index. -/
theorem entry_zone_is_intercept (u l : Trendline) (close : List ℚ) (s : ℚ)
    (g : GexProfile) (ut : List Trade) (sig : Signal)
    (h : generate_signal (detect_channel_from u l close) s g ut = some sig) :
    (sig.direction = "LONG" → sig.entry_price_zone = l.intercept) ∧
    (sig.direction = "SHORT" → sig.entry_price_zone = u.intercept) := by
  unfold generate_signal at h
  by_cases hstat : (detect_channel_from u l close).status ≠ "Valid"
  · rw [if_pos hstat] at h
    exact Option.noConfusion h
  · rw [if_neg hstat] at h
    revert h
    cases hlc : long_cond (detect_channel_from u l close) s g ut <;>
      cases hsc : short_cond (detect_channel_from u l close) s g ut <;>
      intro h <;> simp_all [detect_channel_from] <;> rw [← h] <;> simp

/-- Witness for C6: a horizontal channel with support intercept `4` emits a
`LONG` signal whose entry zone is `4`. -/
theorem entry_zone_is_intercept_witness :
    generate_signal (detect_channel_from ⟨0, 6⟩ ⟨0, 4⟩ sampleClose) (8/10) sampleGex [callTrade] =
      some ⟨none, "LONG", 1, 4, none, none, none⟩ ∧
    ((Signal.mk none "LONG" 1 4 none none none).direction = "LONG" →
      (Signal.mk none "LONG" 1 4 none none none).entry_price_zone =
        (Trendline.mk 0 4).intercept) := by
  have hEval : generate_signal (detect_channel_from ⟨0, 6⟩ ⟨0, 4⟩ sampleClose)
      (8/10) sampleGex [callTrade] = some ⟨none, "LONG", 1, 4, none, none, none⟩ := by
    norm_num [generate_signal, long_cond, short_cond, detect_channel_from, sampleClose,
      sampleGex, callTrade, validate_channel, slopeDiff, containmentFraction, containedCount,
      Trendline.value_at, List.enum, List.enumFrom, List.filter, currentPosition, List.any,
      abs_eq_max_neg]
  exact ⟨hEval, (entry_zone_is_intercept ⟨0, 6⟩ ⟨0, 4⟩ sampleClose (8/10) sampleGex
    [callTrade] _ hEval).1⟩

/-- Ratio of a difference to a sum of nonnegative rationals stays within
`[-1, 1]`. Helper for the sentiment bound. -/
theorem sub_div_add_bounds (C P : ℚ) (hC : 0 ≤ C) (hP : 0 ≤ P)
    (h0 : C + P ≠ 0) : -1 ≤ (C - P) / (C + P) ∧ (C - P) / (C + P) ≤ 1 := by
  have hT : 0 < C + P := lt_of_le_of_ne (by linarith) (Ne.symm h0)
  constructor
  · rw [le_div_iff₀ hT]
    linarith
  · rw [div_le_one hT]
    linarith

/-- C9: for trade records with nonnegative premiums, the sentiment score
equals the premium imbalance `(call − put) / (call + put)` over the summed
premiums, lies in `[-1, 1]`, and equals `0` exactly when the list is empty
or the total premium is zero. -/
theorem flow_sentiment_bounded (trades : List FlowTrade)
    (h : ∀ t ∈ trades, 0 ≤ t.call_premium ∧ 0 ≤ t.put_premium) :
    (-1 ≤ analyze_flow_sentiment trades ∧ analyze_flow_sentiment trades ≤ 1) ∧
    (trades = [] → analyze_flow_sentiment trades = 0) ∧
    ((trades.map (fun t => t.call_premium)).sum +
        (trades.map (fun t => t.put_premium)).sum = 0 →
      analyze_flow_sentiment trades = 0) ∧
    (trades ≠ [] →
      (trades.map (fun t => t.call_premium)).sum +
        (trades.map (fun t => t.put_premium)).sum ≠ 0 →
      analyze_flow_sentiment trades =
        ((trades.map (fun t => t.call_premium)).sum -
          (trades.map (fun t => t.put_premium)).sum) /
        ((trades.map (fun t => t.call_premium)).sum +
          (trades.map (fun t => t.put_premium)).sum)) := by
  have hC : 0 ≤ (trades.map (fun t => t.call_premium)).sum := by
    refine List.sum_nonneg ?_
    intro q hq
    obtain ⟨t, ht, rfl⟩ := List.mem_map.mp hq
    exact (h t ht).1
  have hP : 0 ≤ (trades.map (fun t => t.put_premium)).sum := by
    refine List.sum_nonneg ?_
    intro q hq
    obtain ⟨t, ht, rfl⟩ := List.mem_map.mp hq
    exact (h t ht).2
  by_cases he : trades = []
  · subst he
    refine ⟨by norm_num [analyze_flow_sentiment], fun _ => rfl, fun _ => rfl, ?_⟩
    intro hne
    exact absurd rfl hne
  · by_cases h0 : (trades.map (fun t => t.call_premium)).sum +
        (trades.map (fun t => t.put_premium)).sum = 0
    · have hval : analyze_flow_sentiment trades = 0 := by
        unfold analyze_flow_sentiment
        rw [if_neg he, if_pos h0]
      refine ⟨by rw [hval]; norm_num, fun habs => absurd habs he, fun _ => hval,
        fun _ habs => absurd h0 habs⟩
    · have hval : analyze_flow_sentiment trades =
          ((trades.map (fun t => t.call_premium)).sum -
            (trades.map (fun t => t.put_premium)).sum) /
          ((trades.map (fun t => t.call_premium)).sum +
            (trades.map (fun t => t.put_premium)).sum) := by
        unfold analyze_flow_sentiment
        rw [if_neg he, if_neg h0]
      refine ⟨?_, fun habs => absurd habs he, fun habs => absurd habs h0,
        fun _ _ => hval⟩
      rw [hval]
      exact sub_div_add_bounds _ _ hC hP h0

/-- Witness for C9 at a single trade with call premium `100` and put
premium `50`. -/
theorem flow_sentiment_bounded_witness :
    (∀ t ∈ [FlowTrade.mk 100 50], 0 ≤ t.call_premium ∧ 0 ≤ t.put_premium) ∧
    (-1 ≤ analyze_flow_sentiment [FlowTrade.mk 100 50] ∧
      analyze_flow_sentiment [FlowTrade.mk 100 50] ≤ 1) := by
  have hpos : ∀ t ∈ [FlowTrade.mk 100 50], 0 ≤ t.call_premium ∧ 0 ≤ t.put_premium := by
    intro t ht
    rw [List.mem_singleton] at ht
    subst ht
    constructor <;> norm_num
  exact ⟨hpos, (flow_sentiment_bounded [FlowTrade.mk 100 50] hpos).1⟩

/-- Witness for C10 at a zero-slope support line and upper slope `3`. -/
theorem zero_slope_parallelism_witness :
    (Trendline.mk 0 0).slope = 0 ∧
    ((if (Trendline.mk 0 0).slope = 0 then (1 : ℚ) else (Trendline.mk 0 0).slope) = 1 ∧
     slopeDiff ⟨3, 0⟩ ⟨0, 0⟩ = |(3 : ℚ)| ∧
     (¬(slopeDiff ⟨3, 0⟩ ⟨0, 0⟩ > 1/10) ↔ |(3 : ℚ)| ≤ 1/10)) :=
  ⟨rfl, (zero_slope_parallelism ⟨3, 0⟩ ⟨0, 0⟩).2 rfl⟩

end UWIBKR

